import Mathlib

/-!
Shallow embedding of the resilience execution layer of `goprobe`
(`src/probe/retry.go` and `src/probe/errors.go`): the error taxonomy,
retryability classification, exponential-backoff delay computation,
the circuit breaker state machine, and the retry loop.

Modelling conventions:
* `time.Duration` values (int64 nanoseconds) are modelled as `Int`;
  timestamps (`time.Time`) as `Int` nanoseconds, passed explicitly
  where the Go code calls `time.Now()`.
* `float64` arithmetic in `calculateDelay` is modelled over `ℚ`
  (all constants involved — 0.25, the multiplier 2.0, durations —
  are exactly representable; rounding is not modelled).
  `rand.Float64()` is modelled as an explicit parameter `r` with the
  contract `0 ≤ r < 1`.
* A Go `error` value is the inductive `GoError`: either a `*ProbeError`
  (kind, message, url, optional wrapped cause, as in `errors.go`) or
  some other error value, possibly wrapping a cause (`fmt.Errorf`-style
  wrapping); `errors.As(err, &probeErr)` is `asProbeError`, walking the
  `Unwrap` chain.
* The caller-supplied operation is a function from the invocation index
  to its result (`none` = nil error); the context is a pair of functions
  saying whether `ctx.Done()` fires at the entry check of iteration `i`
  (`ctxEntry i`) and during the inter-attempt wait of iteration `i`
  (`ctxWait i`); `ctxErr` is the value of `ctx.Err()`.
* `executeWithRetry` returns the error-or-nil result together with the
  number of operation invocations and the number of inter-attempt waits
  entered, so that "the operation was not invoked" and "no delay was
  incurred" are stated as counts.
* The breaker mutex serialises each call; a single guarded call is the
  pure state transformer `cbExecute` on the `CircuitBreaker` record.
-/

namespace GoProbe

/-- The five error kinds of `errors.go`. -/
inductive ErrorType where
  | network
  | parsing
  | validation
  | timeout
  | auth
deriving DecidableEq

/-- A Go error value as seen by the retry layer: a `*ProbeError`
(`probeError kind message url cause`) or any other error, possibly
wrapping a cause reachable via `Unwrap`. -/
inductive GoError where
  | probeError (kind : ErrorType) (msg : String) (url : String) (cause : Option GoError)
  | plainError (tag : Nat) (cause : Option GoError)

/-- `errors.As(err, &probeErr)`: walk the error chain via `Unwrap` and
return the first `*ProbeError` found (its fields), if any.
`ProbeError.Unwrap` returns `Cause`; a plain wrapped error unwraps to
its cause. -/
def asProbeError : GoError → Option (ErrorType × String × String × Option GoError)
  | .probeError t m u c => some (t, m, u, c)
  | .plainError _ none => none
  | .plainError _ (some e) => asProbeError e

/-- The `for _, retryableType := range RetryableErrors` loop of
`isRetryable`: linear scan for an equal kind. -/
def containsType : List ErrorType → ErrorType → Bool
  | [], _ => false
  | t :: rest, pt => if pt = t then true else containsType rest pt

/-- `RetryConfig` from `retry.go`. Durations in nanoseconds. -/
structure RetryConfig where
  MaxRetries : Int
  InitialDelay : Int
  MaxDelay : Int
  BackoffMultiplier : ℚ
  Jitter : Bool
  RetryableErrors : List ErrorType

/-- `DefaultRetryConfig()`. -/
def DefaultRetryConfig : RetryConfig :=
  { MaxRetries := 3
    InitialDelay := 100000000
    MaxDelay := 5000000000
    BackoffMultiplier := 2
    Jitter := true
    RetryableErrors := [ErrorType.network, ErrorType.timeout] }

/-- `RetryExecutor.isRetryable`: false when no `*ProbeError` is in the
chain, otherwise whether the first found `ProbeError`'s kind is in the
configured retryable set. -/
def isRetryable (retryable : List ErrorType) (err : GoError) : Bool :=
  match asProbeError err with
  | none => false
  | some (t, _, _, _) => containsType retryable t

/-- `CircuitBreakerConfig` from `retry.go`. -/
structure CircuitBreakerConfig where
  Enabled : Bool
  FailureThreshold : Int
  ResetTimeout : Int
  HalfOpenMaxRequests : Int

/-- `DefaultCircuitBreakerConfig()`. -/
def DefaultCircuitBreakerConfig : CircuitBreakerConfig :=
  { Enabled := true
    FailureThreshold := 5
    ResetTimeout := 30000000000
    HalfOpenMaxRequests := 3 }

/-- `CircuitState`. -/
inductive CircuitState where
  | Closed
  | Open
  | HalfOpen
deriving DecidableEq

/-- The mutable fields of `CircuitBreaker` (the mutex is modelled by
treating each guarded call as one atomic state transformation). -/
structure CircuitBreaker where
  config : CircuitBreakerConfig
  state : CircuitState
  failures : Int
  requests : Int
  lastFailTime : Int

/-- `NewCircuitBreaker` with a non-nil config: zero-valued counters,
state Closed. The zero `time.Time` is modelled as timestamp 0. -/
def newCircuitBreaker (config : CircuitBreakerConfig) : CircuitBreaker :=
  { config := config
    state := CircuitState.Closed
    failures := 0
    requests := 0
    lastFailTime := 0 }

/-- `CircuitBreaker.allowRequest`, with `now` the value of `time.Now()`:
returns the decision and the updated breaker. -/
def allowRequest (cb : CircuitBreaker) (now : Int) : Bool × CircuitBreaker :=
  match cb.state with
  | CircuitState.Closed => (true, cb)
  | CircuitState.Open =>
      if now - cb.lastFailTime > cb.config.ResetTimeout then
        (true, { cb with state := CircuitState.HalfOpen, requests := 0 })
      else
        (false, cb)
  | CircuitState.HalfOpen =>
      (decide (cb.requests < cb.config.HalfOpenMaxRequests), cb)

/-- `CircuitBreaker.recordResult`, with `failed = (err != nil)` and `now`
the value of `time.Now()` taken on a failure. -/
def recordResult (cb : CircuitBreaker) (failed : Bool) (now : Int) : CircuitBreaker :=
  let cb1 := if cb.state = CircuitState.HalfOpen then
               { cb with requests := cb.requests + 1 }
             else cb
  if failed then
    let cb2 := { cb1 with failures := cb1.failures + 1, lastFailTime := now }
    if cb2.state = CircuitState.HalfOpen then
      { cb2 with state := CircuitState.Open }
    else if cb2.failures ≥ cb2.config.FailureThreshold then
      { cb2 with state := CircuitState.Open }
    else cb2
  else
    let cb2 := { cb1 with failures := 0 }
    if cb2.state = CircuitState.HalfOpen then
      { cb2 with state := CircuitState.Closed }
    else cb2

/-- The uncapped-then-capped `float64` value computed by
`calculateDelay` before the `time.Duration` conversion, with the random
draw `r` standing for `rand.Float64()`. -/
def calculateDelayF (cfg : RetryConfig) (attempt : Nat) (r : ℚ) : ℚ :=
  let delay := (cfg.InitialDelay : ℚ) * cfg.BackoffMultiplier ^ attempt
  let delay := if cfg.Jitter then delay + delay * (1/4) * r else delay
  if delay > (cfg.MaxDelay : ℚ) then (cfg.MaxDelay : ℚ) else delay

/-- Go's `time.Duration(x)` conversion from `float64`: truncation toward
zero. -/
def durationOfFloat (x : ℚ) : Int :=
  if 0 ≤ x then ⌊x⌋ else ⌈x⌉

/-- `RetryExecutor.calculateDelay` as returned (a `time.Duration`).
`attempt` is a `Nat` because the loop only calls it with `attempt ≥ 0`. -/
def calculateDelay (cfg : RetryConfig) (attempt : Nat) (r : ℚ) : Int :=
  durationOfFloat (calculateDelayF cfg attempt r)

/-- The body of `executeWithRetry`'s `for` loop from iteration `attempt`
on, where `remaining` is `MaxRetries - attempt` (number of iterations
still allowed after this one).  Returns the error-or-nil result, the
number of operation invocations, and the number of inter-attempt waits
entered.  On the entry `select`, `ctx.Err()` is returned when
`ctxEntry attempt` fires; on a nil operation result the loop returns nil
(the log call has no semantic effect); a non-retryable error is returned
at once; on the last permitted iteration the loop breaks and returns the
last error; otherwise the loop waits (returning `ctx.Err()` if
`ctxWait attempt` fires) and continues. -/
def retryLoop (cfg : RetryConfig) (op : Nat → Option GoError)
    (ctxEntry ctxWait : Nat → Bool) (ctxErr : GoError) :
    Nat → Nat → Option GoError × Nat × Nat
  | attempt, remaining =>
    if ctxEntry attempt then (some ctxErr, 0, 0)
    else
      match op attempt with
      | none => (none, 1, 0)
      | some err =>
        if isRetryable cfg.RetryableErrors err = false then (some err, 1, 0)
        else
          match remaining with
          | 0 => (some err, 1, 0)
          | r + 1 =>
            if ctxWait attempt then (some ctxErr, 1, 1)
            else
              let rest := retryLoop cfg op ctxEntry ctxWait ctxErr (attempt + 1) r
              (rest.1, rest.2.1 + 1, rest.2.2 + 1)

/-- `RetryExecutor.executeWithRetry`: the loop
`for attempt := 0; attempt <= MaxRetries; attempt++`.  When
`MaxRetries < 0` the body never runs and the zero-valued `lastErr`
(nil) is returned; otherwise the loop runs from attempt 0 with
`MaxRetries` further iterations allowed. -/
def executeWithRetry (cfg : RetryConfig) (op : Nat → Option GoError)
    (ctxEntry ctxWait : Nat → Bool) (ctxErr : GoError) :
    Option GoError × Nat × Nat :=
  if cfg.MaxRetries < 0 then (none, 0, 0)
  else retryLoop cfg op ctxEntry ctxWait ctxErr 0 cfg.MaxRetries.toNat

/-- `CircuitBreaker.Execute` around a guarded call whose (would-be)
result and invocation/wait counts are `fnResult`: if disabled, run the
function; if `allowRequest` refuses, return the synthetic breaker error
without running the function (counts 0); otherwise run it, record its
outcome, and propagate the outcome.  Returns the error-or-nil result,
the updated breaker, and the counts actually incurred. -/
def cbExecute (cb : CircuitBreaker) (now : Int)
    (fnResult : Option GoError × Nat × Nat) :
    Option GoError × CircuitBreaker × Nat × Nat :=
  if cb.config.Enabled = false then
    (fnResult.1, cb, fnResult.2)
  else
    let ar := allowRequest cb now
    if ar.1 = false then
      (some (GoError.probeError ErrorType.network "circuit breaker is open" "" none),
       ar.2, 0, 0)
    else
      (fnResult.1, recordResult ar.2 fnResult.1.isSome now, fnResult.2)

/-- `RetryExecutor.Execute`: with a breaker configured, the whole retry
sequence is the single function guarded by `cbExecute`; without one,
plain `executeWithRetry`.  Returns the error-or-nil result, the breaker
(if any) after the call, and the operation-invocation and wait counts. -/
def retryExecutorExecute (cfg : RetryConfig) (breaker : Option CircuitBreaker)
    (now : Int) (op : Nat → Option GoError)
    (ctxEntry ctxWait : Nat → Bool) (ctxErr : GoError) :
    Option GoError × Option CircuitBreaker × Nat × Nat :=
  match breaker with
  | none =>
      let r := executeWithRetry cfg op ctxEntry ctxWait ctxErr
      (r.1, none, r.2)
  | some cb =>
      let r := cbExecute cb now (executeWithRetry cfg op ctxEntry ctxWait ctxErr)
      (r.1, some r.2.1, r.2.2)

/-! ### Helper lemmas -/

/-- When every invocation fails with the same retryable error and the
context never fires, the loop runs all remaining iterations, waits
between attempts, and returns that error. -/
theorem retryLoop_persistent (cfg : RetryConfig) (e ctxErr : GoError)
    (h : isRetryable cfg.RetryableErrors e = true) :
    ∀ remaining attempt,
      retryLoop cfg (fun _ => some e) (fun _ => false) (fun _ => false) ctxErr
          attempt remaining
        = (some e, remaining + 1, remaining) := by
  intro remaining
  induction remaining with
  | zero =>
      intro attempt
      simp [retryLoop, h]
  | succ r ih =>
      intro attempt
      rw [retryLoop]
      simp [h, ih (attempt + 1)]

/-- A non-retryable error returned by the first invocation is returned
at once, after exactly one invocation and no wait. -/
theorem retryLoop_nonretryable (cfg : RetryConfig) (op : Nat → Option GoError)
    (ctxEntry ctxWait : Nat → Bool) (ctxErr e : GoError)
    (attempt remaining : Nat)
    (hE : ctxEntry attempt = false) (hop : op attempt = some e)
    (h : isRetryable cfg.RetryableErrors e = false) :
    retryLoop cfg op ctxEntry ctxWait ctxErr attempt remaining
      = (some e, 1, 0) := by
  rw [retryLoop]
  simp [hE, hop, h]

/-- Any error the loop returns is either the context's own error value
or one of the values some invocation of the operation returned. -/
theorem retryLoop_err_origin (cfg : RetryConfig) (op : Nat → Option GoError)
    (ctxEntry ctxWait : Nat → Bool) (ctxErr : GoError) :
    ∀ remaining attempt e,
      (retryLoop cfg op ctxEntry ctxWait ctxErr attempt remaining).1 = some e →
      e = ctxErr ∨ ∃ i, op i = some e := by
  intro remaining
  induction remaining with
  | zero =>
      intro attempt e h
      rw [retryLoop] at h
      by_cases hE : ctxEntry attempt
      · simp [hE] at h; exact Or.inl h.symm
      · cases hop : op attempt with
        | none => simp [hE, hop] at h
        | some err =>
            simp only [hE, hop, if_false, Bool.false_eq_true] at h
            by_cases hR : isRetryable cfg.RetryableErrors err = false <;>
              · simp [hR] at h
                exact Or.inr ⟨attempt, by rw [hop, h]⟩
  | succ r ih =>
      intro attempt e h
      rw [retryLoop] at h
      by_cases hE : ctxEntry attempt
      · simp [hE] at h; exact Or.inl h.symm
      · cases hop : op attempt with
        | none => simp [hE, hop] at h
        | some err =>
            simp only [hE, hop, if_false, Bool.false_eq_true] at h
            by_cases hR : isRetryable cfg.RetryableErrors err = false
            · simp [hR] at h
              exact Or.inr ⟨attempt, by rw [hop, h]⟩
            · simp only [hR, if_false, Bool.false_eq_true] at h
              by_cases hW : ctxWait attempt
              · simp [hW] at h; exact Or.inl h.symm
              · simp [hW] at h
                exact ih (attempt + 1) e h

/-! ### Claim theorems -/

/-- Claim C9: for every RetryConfig with MaxRetries < 0 and every
operation, executeWithRetry returns nil (reported success) without
invoking the operation at all, because the attempt loop body never runs
and the zero value of the last-error variable is returned. -/
theorem negative_maxretries_returns_nil (cfg : RetryConfig)
    (op : Nat → Option GoError) (ctxEntry ctxWait : Nat → Bool)
    (ctxErr : GoError) (hneg : cfg.MaxRetries < 0) :
    executeWithRetry cfg op ctxEntry ctxWait ctxErr = (none, 0, 0) := by
  rw [executeWithRetry, if_pos hneg]

theorem negative_maxretries_returns_nil_witness :
    executeWithRetry
        { MaxRetries := -1, InitialDelay := 100000000, MaxDelay := 5000000000,
          BackoffMultiplier := 2, Jitter := false,
          RetryableErrors := [ErrorType.network, ErrorType.timeout] }
        (fun _ => some (GoError.probeError ErrorType.network "boom" "" none))
        (fun _ => false) (fun _ => false) (GoError.plainError 0 none)
      = (none, 0, 0) :=
  negative_maxretries_returns_nil _ _ _ _ _ (by decide)

/-- Claim C1: an operation persistently failing with a ProbeError of
kind network, under a RetryConfig with MaxRetries = N ≥ 0 whose
retryable set contains network, is invoked exactly N+1 times by
RetryExecutor.Execute (without a breaker) and that same error is
returned; an operation failing with a ProbeError of kind auth, the
auth kind not being in the retryable set, is invoked exactly once and
its error returned, regardless of the configured MaxRetries. -/
theorem network_auth_attempt_counts (cfg : RetryConfig) (N : Nat)
    (mN uN mA uA : String) (cN cA : Option GoError) (ctxErr : GoError)
    (hN : cfg.MaxRetries = (N : Int))
    (hnet : containsType cfg.RetryableErrors ErrorType.network = true)
    (hauth : containsType cfg.RetryableErrors ErrorType.auth = false) :
    retryExecutorExecute cfg none 0
        (fun _ => some (GoError.probeError ErrorType.network mN uN cN))
        (fun _ => false) (fun _ => false) ctxErr
      = (some (GoError.probeError ErrorType.network mN uN cN), none, N + 1, N)
    ∧ retryExecutorExecute cfg none 0
        (fun _ => some (GoError.probeError ErrorType.auth mA uA cA))
        (fun _ => false) (fun _ => false) ctxErr
      = (some (GoError.probeError ErrorType.auth mA uA cA), none, 1, 0) := by
  have hnotneg : ¬ cfg.MaxRetries < 0 := by rw [hN]; exact Int.not_lt.mpr (Int.ofNat_nonneg N)
  have htoNat : cfg.MaxRetries.toNat = N := by rw [hN]; rfl
  constructor
  · have hret : isRetryable cfg.RetryableErrors
        (GoError.probeError ErrorType.network mN uN cN) = true := by
      simp [isRetryable, asProbeError, hnet]
    rw [retryExecutorExecute]
    rw [executeWithRetry, if_neg hnotneg, htoNat]
    rw [retryLoop_persistent cfg _ ctxErr hret N 0]
  · have hret : isRetryable cfg.RetryableErrors
        (GoError.probeError ErrorType.auth mA uA cA) = false := by
      simp [isRetryable, asProbeError, hauth]
    rw [retryExecutorExecute]
    rw [executeWithRetry, if_neg hnotneg, htoNat]
    rw [retryLoop_nonretryable cfg _ _ _ ctxErr _ 0 N rfl rfl hret]

theorem network_auth_attempt_counts_witness :
    retryExecutorExecute
        { MaxRetries := 3, InitialDelay := 100000000, MaxDelay := 5000000000,
          BackoffMultiplier := 2, Jitter := false,
          RetryableErrors := [ErrorType.network, ErrorType.timeout] }
        none 0
        (fun _ => some (GoError.probeError ErrorType.network "conn refused" "" none))
        (fun _ => false) (fun _ => false) (GoError.plainError 0 none)
      = (some (GoError.probeError ErrorType.network "conn refused" "" none), none, 4, 3)
    ∧ retryExecutorExecute
        { MaxRetries := 3, InitialDelay := 100000000, MaxDelay := 5000000000,
          BackoffMultiplier := 2, Jitter := false,
          RetryableErrors := [ErrorType.network, ErrorType.timeout] }
        none 0
        (fun _ => some (GoError.probeError ErrorType.auth "denied" "" none))
        (fun _ => false) (fun _ => false) (GoError.plainError 0 none)
      = (some (GoError.probeError ErrorType.auth "denied" "" none), none, 1, 0) :=
  network_auth_attempt_counts _ 3 "conn refused" "" "denied" "" none none _
    rfl rfl rfl

/-- Claim C2: with Jitter disabled, calculateDelay(a) equals
min(InitialDelay * BackoffMultiplier^a, MaxDelay) exactly (at the
float64 value level, modelled over ℚ), and is a pure function of
attempt and config: the random draw does not affect the result. -/
theorem calculateDelay_no_jitter_exact (cfg : RetryConfig) (a : Nat)
    (r r' : ℚ) (hJ : cfg.Jitter = false) :
    calculateDelayF cfg a r
        = min ((cfg.InitialDelay : ℚ) * cfg.BackoffMultiplier ^ a) (cfg.MaxDelay : ℚ)
    ∧ calculateDelay cfg a r = calculateDelay cfg a r' := by
  have key : ∀ s : ℚ, calculateDelayF cfg a s
      = min ((cfg.InitialDelay : ℚ) * cfg.BackoffMultiplier ^ a) (cfg.MaxDelay : ℚ) := by
    intro s
    simp only [calculateDelayF, hJ, Bool.false_eq_true, if_false]
    split_ifs with h1
    · exact (min_eq_right h1.le).symm
    · exact (min_eq_left (not_lt.mp h1)).symm
  exact ⟨key r, by rw [calculateDelay, calculateDelay, key r, key r']⟩

theorem calculateDelay_no_jitter_exact_witness :
    calculateDelayF
        { MaxRetries := 3, InitialDelay := 100000000, MaxDelay := 1000000000,
          BackoffMultiplier := 2, Jitter := false,
          RetryableErrors := [ErrorType.network, ErrorType.timeout] } 4 (1/3)
      = min ((((100000000 : Int)) : ℚ) * (2 : ℚ) ^ (4 : Nat)) (((1000000000 : Int)) : ℚ)
    ∧ calculateDelay
        { MaxRetries := 3, InitialDelay := 100000000, MaxDelay := 1000000000,
          BackoffMultiplier := 2, Jitter := false,
          RetryableErrors := [ErrorType.network, ErrorType.timeout] } 4 (1/3)
      = calculateDelay
        { MaxRetries := 3, InitialDelay := 100000000, MaxDelay := 1000000000,
          BackoffMultiplier := 2, Jitter := false,
          RetryableErrors := [ErrorType.network, ErrorType.timeout] } 4 (2/3) :=
  calculateDelay_no_jitter_exact _ 4 (1/3) (2/3) rfl

/-- Claim C10: retryability classification traverses wrapped error
chains: unwrapping one non-ProbeError layer leaves the classification
unchanged, so an error wrapping a ProbeError with a retryable kind is
retryable even though the outermost error is not a ProbeError; and the
first ProbeError found decides — a ProbeError's classification ignores
whatever its own wrapped cause contains. -/
theorem isRetryable_traverses_wrapped_chain (retryable : List ErrorType)
    (tag : Nat) (e : GoError) (t : ErrorType) (m u : String)
    (c inner : Option GoError)
    (hFind : asProbeError e = some (t, m, u, c))
    (hT : containsType retryable t = true) :
    asProbeError (GoError.plainError tag (some e)) = some (t, m, u, c)
    ∧ isRetryable retryable (GoError.plainError tag (some e)) = true
    ∧ asProbeError (GoError.probeError t m u inner) = some (t, m, u, inner)
    ∧ isRetryable retryable (GoError.probeError t m u inner) = true := by
  refine ⟨by rw [asProbeError, hFind], ?_, rfl, ?_⟩
  · rw [isRetryable, asProbeError, hFind]; exact hT
  · rw [isRetryable, asProbeError]; exact hT

theorem isRetryable_traverses_wrapped_chain_witness :
    asProbeError (GoError.plainError 7
        (some (GoError.probeError ErrorType.network "reset" "u" none)))
      = some (ErrorType.network, "reset", "u", none)
    ∧ isRetryable [ErrorType.network, ErrorType.timeout]
        (GoError.plainError 7
          (some (GoError.probeError ErrorType.network "reset" "u" none))) = true
    ∧ asProbeError (GoError.probeError ErrorType.network "reset" "u"
          (some (GoError.probeError ErrorType.auth "deep" "" none)))
      = some (ErrorType.network, "reset", "u",
          some (GoError.probeError ErrorType.auth "deep" "" none))
    ∧ isRetryable [ErrorType.network, ErrorType.timeout]
        (GoError.probeError ErrorType.network "reset" "u"
          (some (GoError.probeError ErrorType.auth "deep" "" none))) = true :=
  isRetryable_traverses_wrapped_chain [ErrorType.network, ErrorType.timeout]
    7 (GoError.probeError ErrorType.network "reset" "u" none)
    ErrorType.network "reset" "u" none
    (some (GoError.probeError ErrorType.auth "deep" "" none)) rfl rfl

/-- Truncation toward zero is bounded by any integer bound on the
rational value. -/
theorem durationOfFloat_le (x : ℚ) (m : Int) (h : x ≤ (m : ℚ)) :
    durationOfFloat x ≤ m := by
  rw [durationOfFloat]
  split_ifs with h0
  · calc ⌊x⌋ ≤ ⌊(m : ℚ)⌋ := Int.floor_mono h
      _ = m := Int.floor_intCast m
  · calc ⌈x⌉ ≤ ⌈(m : ℚ)⌉ := Int.ceil_mono h
      _ = m := Int.ceil_intCast m

/-- Claim C3: with Jitter enabled, the jitter addend (up to 25% of the
uncapped base delay) is added before the MaxDelay cap, so for every
jitter-enabled config, every attempt and every random draw the computed
delay never exceeds MaxDelay (both at the float value level and after
the Duration conversion); and for any config with InitialDelay = 100ms
and MaxDelay ≥ 125ms, at attempt 0 every computed delay lies in
[100ms, 125ms]. -/
theorem calculateDelay_jitter_bounded (cfg cfg100 : RetryConfig) (r : ℚ)
    (hJ : cfg.Jitter = true) (h0 : 0 ≤ r) (h1 : r < 1)
    (hJ2 : cfg100.Jitter = true)
    (hI : cfg100.InitialDelay = 100000000)
    (hM : (125000000 : Int) ≤ cfg100.MaxDelay) :
    (∀ (a : Nat) (s : ℚ), calculateDelayF cfg a s ≤ (cfg.MaxDelay : ℚ))
    ∧ (∀ (a : Nat) (s : ℚ), calculateDelay cfg a s ≤ cfg.MaxDelay)
    ∧ (100000000 : ℚ) ≤ calculateDelayF cfg100 0 r
    ∧ calculateDelayF cfg100 0 r ≤ (125000000 : ℚ) := by
  have hcap : ∀ (a : Nat) (s : ℚ), calculateDelayF cfg a s ≤ (cfg.MaxDelay : ℚ) := by
    intro a s
    simp only [calculateDelayF]
    split_ifs with h2
    · exact le_refl _
    · exact not_lt.mp h2
  have hmq : (125000000 : ℚ) ≤ (cfg100.MaxDelay : ℚ) := by exact_mod_cast hM
  have hub : (100000000 : ℚ) + 100000000 * (1/4) * r ≤ 125000000 := by nlinarith
  have hlb : (100000000 : ℚ) ≤ (100000000 : ℚ) + 100000000 * (1/4) * r := by nlinarith
  have hval : calculateDelayF cfg100 0 r = 100000000 + 100000000 * (1/4) * r := by
    simp only [calculateDelayF, hJ2, if_true, hI, pow_zero, mul_one]
    push_cast
    rw [if_neg (not_lt.mpr (hub.trans hmq))]
  refine ⟨hcap, ?_, ?_, ?_⟩
  · intro a s
    rw [calculateDelay]
    exact durationOfFloat_le _ _ (hcap a s)
  · rw [hval]; exact hlb
  · rw [hval]; exact hub

theorem calculateDelay_jitter_bounded_witness :
    ((∀ (a : Nat) (s : ℚ), calculateDelayF
        { MaxRetries := 2, InitialDelay := 300000000, MaxDelay := 400000000,
          BackoffMultiplier := 3, Jitter := true,
          RetryableErrors := [ErrorType.network] } a s
          ≤ ((400000000 : Int) : ℚ))
    ∧ (∀ (a : Nat) (s : ℚ), calculateDelay
        { MaxRetries := 2, InitialDelay := 300000000, MaxDelay := 400000000,
          BackoffMultiplier := 3, Jitter := true,
          RetryableErrors := [ErrorType.network] } a s
          ≤ (400000000 : Int))
    ∧ (100000000 : ℚ) ≤ calculateDelayF
        { MaxRetries := 3, InitialDelay := 100000000, MaxDelay := 5000000000,
          BackoffMultiplier := 2, Jitter := true,
          RetryableErrors := [ErrorType.network, ErrorType.timeout] } 0 (1/2)
    ∧ calculateDelayF
        { MaxRetries := 3, InitialDelay := 100000000, MaxDelay := 5000000000,
          BackoffMultiplier := 2, Jitter := true,
          RetryableErrors := [ErrorType.network, ErrorType.timeout] } 0 (1/2)
        ≤ (125000000 : ℚ)) :=
  calculateDelay_jitter_bounded
    { MaxRetries := 2, InitialDelay := 300000000, MaxDelay := 400000000,
      BackoffMultiplier := 3, Jitter := true,
      RetryableErrors := [ErrorType.network] }
    { MaxRetries := 3, InitialDelay := 100000000, MaxDelay := 5000000000,
      BackoffMultiplier := 2, Jitter := true,
      RetryableErrors := [ErrorType.network, ErrorType.timeout] }
    (1/2) rfl (by norm_num) (by norm_num) rfl rfl (by norm_num)

/-- Claim C7: an error whose chain contains no ProbeError is classified
non-retryable and returned immediately after one attempt (no wait); and
any error the retry loop finally returns is the original error value
itself — either the context's own error or exactly a value some
invocation returned — never wrapped, swallowed, or downgraded. -/
theorem unclassified_fail_fast_and_error_preserved (cfg : RetryConfig)
    (op : Nat → Option GoError) (ctxEntry ctxWait : Nat → Bool)
    (ctxErr e : GoError)
    (hNo : asProbeError e = none)
    (hM : 0 ≤ cfg.MaxRetries)
    (hE0 : ctxEntry 0 = false)
    (hop0 : op 0 = some e) :
    isRetryable cfg.RetryableErrors e = false
    ∧ executeWithRetry cfg op ctxEntry ctxWait ctxErr = (some e, 1, 0)
    ∧ ∀ (op2 : Nat → Option GoError) (cE2 cW2 : Nat → Bool) (ctxErr2 e2 : GoError),
        (executeWithRetry cfg op2 cE2 cW2 ctxErr2).1 = some e2 →
        e2 = ctxErr2 ∨ ∃ i, op2 i = some e2 := by
  have hR : isRetryable cfg.RetryableErrors e = false := by
    rw [isRetryable, hNo]
  refine ⟨hR, ?_, ?_⟩
  · rw [executeWithRetry, if_neg (Int.not_lt.mpr hM)]
    exact retryLoop_nonretryable cfg op ctxEntry ctxWait ctxErr e 0 _ hE0 hop0 hR
  · intro op2 cE2 cW2 ctxErr2 e2 h
    rw [executeWithRetry, if_neg (Int.not_lt.mpr hM)] at h
    exact retryLoop_err_origin cfg op2 cE2 cW2 ctxErr2 _ 0 e2 h

theorem unclassified_fail_fast_and_error_preserved_witness :
    (isRetryable [ErrorType.network, ErrorType.timeout]
        (GoError.plainError 3 none) = false
    ∧ executeWithRetry
        { MaxRetries := 2, InitialDelay := 100000000, MaxDelay := 5000000000,
          BackoffMultiplier := 2, Jitter := false,
          RetryableErrors := [ErrorType.network, ErrorType.timeout] }
        (fun _ => some (GoError.plainError 3 none))
        (fun _ => false) (fun _ => false) (GoError.plainError 0 none)
      = (some (GoError.plainError 3 none), 1, 0)
    ∧ ∀ (op2 : Nat → Option GoError) (cE2 cW2 : Nat → Bool) (ctxErr2 e2 : GoError),
        (executeWithRetry
          { MaxRetries := 2, InitialDelay := 100000000, MaxDelay := 5000000000,
            BackoffMultiplier := 2, Jitter := false,
            RetryableErrors := [ErrorType.network, ErrorType.timeout] }
          op2 cE2 cW2 ctxErr2).1 = some e2 →
        e2 = ctxErr2 ∨ ∃ i, op2 i = some e2) :=
  unclassified_fail_fast_and_error_preserved _
    (fun _ => some (GoError.plainError 3 none))
    (fun _ => false) (fun _ => false) (GoError.plainError 0 none)
    (GoError.plainError 3 none) rfl (by decide) rfl rfl

/-- Claim C4: the breaker starts in Closed; while Closed every request
is allowed, a success resets the failure counter to zero, a failure
increments it and records the failure timestamp, and when the counter
reaches FailureThreshold the state transitions to Open; while Open a
request is rejected while the elapsed time since the last recorded
failure is within ResetTimeout, and once it exceeds ResetTimeout the
state becomes HalfOpen, the half-open request counter resets to zero,
and that one request is let through. -/
theorem breaker_closed_open_transitions (cfg : CircuitBreakerConfig)
    (cbC cbO : CircuitBreaker) (now : Int)
    (hC : cbC.state = CircuitState.Closed)
    (hO : cbO.state = CircuitState.Open) :
    (newCircuitBreaker cfg).state = CircuitState.Closed
    ∧ allowRequest cbC now = (true, cbC)
    ∧ recordResult cbC false now = { cbC with failures := 0 }
    ∧ (cbC.failures + 1 < cbC.config.FailureThreshold →
        recordResult cbC true now
          = { cbC with failures := cbC.failures + 1, lastFailTime := now })
    ∧ (cbC.config.FailureThreshold ≤ cbC.failures + 1 →
        recordResult cbC true now
          = { cbC with failures := cbC.failures + 1, lastFailTime := now,
                       state := CircuitState.Open })
    ∧ (now - cbO.lastFailTime ≤ cbO.config.ResetTimeout →
        allowRequest cbO now = (false, cbO))
    ∧ (cbO.config.ResetTimeout < now - cbO.lastFailTime →
        allowRequest cbO now
          = (true, { cbO with state := CircuitState.HalfOpen, requests := 0 })) := by
  refine ⟨rfl, ?_, ?_, ?_, ?_, ?_, ?_⟩
  · simp [allowRequest, hC]
  · simp [recordResult, hC]
  · intro h4
    have hlt : ¬ cbC.failures + 1 ≥ cbC.config.FailureThreshold := not_le.mpr h4
    simp [recordResult, hC, hlt]
  · intro h5
    simp [recordResult, hC, h5]
  · intro h6
    simp [allowRequest, hO, not_lt.mpr h6]
  · intro h7
    simp [allowRequest, hO, h7]

theorem breaker_closed_open_transitions_witness :
    ((newCircuitBreaker DefaultCircuitBreakerConfig).state = CircuitState.Closed
    ∧ allowRequest (newCircuitBreaker DefaultCircuitBreakerConfig) 17
        = (true, newCircuitBreaker DefaultCircuitBreakerConfig)
    ∧ recordResult (newCircuitBreaker DefaultCircuitBreakerConfig) false 17
        = { newCircuitBreaker DefaultCircuitBreakerConfig with failures := 0 }
    ∧ ((newCircuitBreaker DefaultCircuitBreakerConfig).failures + 1
          < (newCircuitBreaker DefaultCircuitBreakerConfig).config.FailureThreshold →
        recordResult (newCircuitBreaker DefaultCircuitBreakerConfig) true 17
          = { newCircuitBreaker DefaultCircuitBreakerConfig with
                failures := (newCircuitBreaker DefaultCircuitBreakerConfig).failures + 1,
                lastFailTime := 17 })
    ∧ ((newCircuitBreaker DefaultCircuitBreakerConfig).config.FailureThreshold
          ≤ (newCircuitBreaker DefaultCircuitBreakerConfig).failures + 1 →
        recordResult (newCircuitBreaker DefaultCircuitBreakerConfig) true 17
          = { newCircuitBreaker DefaultCircuitBreakerConfig with
                failures := (newCircuitBreaker DefaultCircuitBreakerConfig).failures + 1,
                lastFailTime := 17, state := CircuitState.Open })
    ∧ (17 - { newCircuitBreaker DefaultCircuitBreakerConfig with
                state := CircuitState.Open }.lastFailTime
          ≤ { newCircuitBreaker DefaultCircuitBreakerConfig with
                state := CircuitState.Open }.config.ResetTimeout →
        allowRequest { newCircuitBreaker DefaultCircuitBreakerConfig with
                state := CircuitState.Open } 17
          = (false, { newCircuitBreaker DefaultCircuitBreakerConfig with
                state := CircuitState.Open }))
    ∧ ({ newCircuitBreaker DefaultCircuitBreakerConfig with
                state := CircuitState.Open }.config.ResetTimeout
          < 17 - { newCircuitBreaker DefaultCircuitBreakerConfig with
                state := CircuitState.Open }.lastFailTime →
        allowRequest { newCircuitBreaker DefaultCircuitBreakerConfig with
                state := CircuitState.Open } 17
          = (true, { { newCircuitBreaker DefaultCircuitBreakerConfig with
                state := CircuitState.Open } with
                state := CircuitState.HalfOpen, requests := 0 }))) :=
  breaker_closed_open_transitions DefaultCircuitBreakerConfig
    (newCircuitBreaker DefaultCircuitBreakerConfig)
    { newCircuitBreaker DefaultCircuitBreakerConfig with state := CircuitState.Open }
    17 rfl rfl

/-- Claim C5: while HalfOpen, any single recorded failure transitions
the state back to Open and refreshes the failure timestamp,
independently of FailureThreshold (the config is arbitrary here); any
recorded success transitions the state to Closed and resets the failure
counter to zero.  The half-open request counter is incremented in both
cases. -/
theorem breaker_halfopen_transitions (cbH : CircuitBreaker) (now : Int)
    (hH : cbH.state = CircuitState.HalfOpen) :
    recordResult cbH true now
      = { cbH with requests := cbH.requests + 1, failures := cbH.failures + 1,
                   lastFailTime := now, state := CircuitState.Open }
    ∧ recordResult cbH false now
      = { cbH with requests := cbH.requests + 1, failures := 0,
                   state := CircuitState.Closed } := by
  constructor <;> simp [recordResult, hH]

theorem breaker_halfopen_transitions_witness :
    recordResult
        { config := DefaultCircuitBreakerConfig, state := CircuitState.HalfOpen,
          failures := 2, requests := 1, lastFailTime := 40 } true 99
      = { config := DefaultCircuitBreakerConfig, state := CircuitState.Open,
          failures := 3, requests := 2, lastFailTime := 99 }
    ∧ recordResult
        { config := DefaultCircuitBreakerConfig, state := CircuitState.HalfOpen,
          failures := 2, requests := 1, lastFailTime := 40 } false 99
      = { config := DefaultCircuitBreakerConfig, state := CircuitState.Closed,
          failures := 0, requests := 2, lastFailTime := 40 } :=
  breaker_halfopen_transitions
    { config := DefaultCircuitBreakerConfig, state := CircuitState.HalfOpen,
      failures := 2, requests := 1, lastFailTime := 40 } 99 rfl

/-- Claim C6: when an enabled breaker's allowRequest refuses, the
guarded call returns a ProbeError of kind network with message exactly
"circuit breaker is open" with zero operation invocations and zero
waits (the guarded function is not run), whatever its would-be result;
and with such a breaker configured, RetryExecutor.Execute returns that
error with zero attempts and zero waits: the rejection short-circuits
before any attempt is made or any delay incurred. -/
theorem breaker_rejection_short_circuits (cfg : RetryConfig)
    (cb : CircuitBreaker) (now : Int) (op : Nat → Option GoError)
    (ctxEntry ctxWait : Nat → Bool) (ctxErr : GoError)
    (hEn : cb.config.Enabled = true)
    (hRej : (allowRequest cb now).1 = false) :
    (∀ fnResult : Option GoError × Nat × Nat,
      cbExecute cb now fnResult
        = (some (GoError.probeError ErrorType.network "circuit breaker is open" "" none),
           (allowRequest cb now).2, 0, 0))
    ∧ retryExecutorExecute cfg (some cb) now op ctxEntry ctxWait ctxErr
        = (some (GoError.probeError ErrorType.network "circuit breaker is open" "" none),
           some (allowRequest cb now).2, 0, 0) := by
  have hcb : ∀ fnResult : Option GoError × Nat × Nat,
      cbExecute cb now fnResult
        = (some (GoError.probeError ErrorType.network "circuit breaker is open" "" none),
           (allowRequest cb now).2, 0, 0) := by
    intro fnResult
    rw [cbExecute, if_neg (by rw [hEn]; exact fun h => Bool.noConfusion h)]
    simp only [hRej, if_pos]
  exact ⟨hcb, by rw [retryExecutorExecute, hcb]⟩

theorem breaker_rejection_short_circuits_witness :
    ((∀ fnResult : Option GoError × Nat × Nat,
      cbExecute
        { config := DefaultCircuitBreakerConfig, state := CircuitState.Open,
          failures := 5, requests := 0, lastFailTime := 0 } 5 fnResult
        = (some (GoError.probeError ErrorType.network "circuit breaker is open" "" none),
           (allowRequest
              { config := DefaultCircuitBreakerConfig, state := CircuitState.Open,
                failures := 5, requests := 0, lastFailTime := 0 } 5).2, 0, 0))
    ∧ retryExecutorExecute DefaultRetryConfig
        (some { config := DefaultCircuitBreakerConfig, state := CircuitState.Open,
                failures := 5, requests := 0, lastFailTime := 0 }) 5
        (fun _ => none) (fun _ => false) (fun _ => false) (GoError.plainError 0 none)
        = (some (GoError.probeError ErrorType.network "circuit breaker is open" "" none),
           some (allowRequest
              { config := DefaultCircuitBreakerConfig, state := CircuitState.Open,
                failures := 5, requests := 0, lastFailTime := 0 } 5).2, 0, 0)) :=
  breaker_rejection_short_circuits DefaultRetryConfig
    { config := DefaultCircuitBreakerConfig, state := CircuitState.Open,
      failures := 5, requests := 0, lastFailTime := 0 } 5
    (fun _ => none) (fun _ => false) (fun _ => false) (GoError.plainError 0 none)
    rfl rfl

/-- If the first `k` iterations from `attempt` see no cancellation and
fail retryably, and the context is done at the entry check of iteration
`attempt + k` (with `k` within the remaining budget), the loop returns
the context's error after exactly `k` invocations and `k` waits —
iteration `attempt + k` does not invoke the operation. -/
theorem retryLoop_entry_cancel (cfg : RetryConfig) (op : Nat → Option GoError)
    (ctxEntry ctxWait : Nat → Bool) (ctxErr : GoError) :
    ∀ k attempt remaining, k ≤ remaining →
      (∀ i, i < k → ctxEntry (attempt + i) = false) →
      ctxEntry (attempt + k) = true →
      (∀ i, i < k → ∃ e, op (attempt + i) = some e
          ∧ isRetryable cfg.RetryableErrors e = true) →
      (∀ i, i < k → ctxWait (attempt + i) = false) →
      retryLoop cfg op ctxEntry ctxWait ctxErr attempt remaining
        = (some ctxErr, k, k) := by
  intro k
  induction k with
  | zero =>
      intro attempt remaining _ _ hk _ _
      rw [Nat.add_zero] at hk
      rw [retryLoop, hk]
      simp
  | succ n ih =>
      intro attempt remaining hle hE hk hop hW
      obtain ⟨e, hope, hre⟩ := hop 0 (Nat.succ_pos n)
      rw [Nat.add_zero] at hope
      have hE0 : ctxEntry attempt = false := by
        have h := hE 0 (Nat.succ_pos n); rwa [Nat.add_zero] at h
      have hW0 : ctxWait attempt = false := by
        have h := hW 0 (Nat.succ_pos n); rwa [Nat.add_zero] at h
      obtain ⟨r, rfl⟩ : ∃ r, remaining = r + 1 := ⟨remaining - 1, by omega⟩
      have ihr := ih (attempt + 1) r (by omega)
        (fun i hi => by
          have h := hE (i + 1) (by omega)
          rwa [show attempt + (i + 1) = attempt + 1 + i by omega] at h)
        (by
          have h := hk
          rwa [show attempt + (n + 1) = attempt + 1 + n by omega] at h)
        (fun i hi => by
          have h := hop (i + 1) (by omega)
          rwa [show attempt + (i + 1) = attempt + 1 + i by omega] at h)
        (fun i hi => by
          have h := hW (i + 1) (by omega)
          rwa [show attempt + (i + 1) = attempt + 1 + i by omega] at h)
      rw [retryLoop, hE0, hope]
      simp [hre, hW0, ihr]

/-- If iterations `attempt` through `attempt + k` see no entry
cancellation and fail retryably, the waits before iteration
`attempt + k` complete, and the context completes during the wait of
iteration `attempt + k` (with the budget strictly exceeding `k`), the
loop returns the context's error after exactly `k + 1` invocations and
`k + 1` entered waits. -/
theorem retryLoop_wait_cancel (cfg : RetryConfig) (op : Nat → Option GoError)
    (ctxEntry ctxWait : Nat → Bool) (ctxErr : GoError) :
    ∀ k attempt remaining, k < remaining →
      (∀ i, i ≤ k → ctxEntry (attempt + i) = false) →
      (∀ i, i ≤ k → ∃ e, op (attempt + i) = some e
          ∧ isRetryable cfg.RetryableErrors e = true) →
      (∀ i, i < k → ctxWait (attempt + i) = false) →
      ctxWait (attempt + k) = true →
      retryLoop cfg op ctxEntry ctxWait ctxErr attempt remaining
        = (some ctxErr, k + 1, k + 1) := by
  intro k
  induction k with
  | zero =>
      intro attempt remaining hlt hE hop hW hk
      obtain ⟨e, hope, hre⟩ := hop 0 (Nat.le_refl 0)
      rw [Nat.add_zero] at hope hk
      have hE0 : ctxEntry attempt = false := by
        have h := hE 0 (Nat.le_refl 0); rwa [Nat.add_zero] at h
      obtain ⟨r, rfl⟩ : ∃ r, remaining = r + 1 := ⟨remaining - 1, by omega⟩
      rw [retryLoop, hE0, hope]
      simp [hre, hk]
  | succ n ih =>
      intro attempt remaining hlt hE hop hW hk
      obtain ⟨e, hope, hre⟩ := hop 0 (Nat.zero_le _)
      rw [Nat.add_zero] at hope
      have hE0 : ctxEntry attempt = false := by
        have h := hE 0 (Nat.zero_le _); rwa [Nat.add_zero] at h
      have hW0 : ctxWait attempt = false := by
        have h := hW 0 (Nat.succ_pos n); rwa [Nat.add_zero] at h
      obtain ⟨r, rfl⟩ : ∃ r, remaining = r + 1 := ⟨remaining - 1, by omega⟩
      have ihr := ih (attempt + 1) r (by omega)
        (fun i hi => by
          have h := hE (i + 1) (by omega)
          rwa [show attempt + (i + 1) = attempt + 1 + i by omega] at h)
        (fun i hi => by
          have h := hop (i + 1) (by omega)
          rwa [show attempt + (i + 1) = attempt + 1 + i by omega] at h)
        (fun i hi => by
          have h := hW (i + 1) (by omega)
          rwa [show attempt + (i + 1) = attempt + 1 + i by omega] at h)
        (by
          have h := hk
          rwa [show attempt + (n + 1) = attempt + 1 + n by omega] at h)
      rw [retryLoop, hE0, hope]
      simp [hre, hW0, ihr]

/-- Claim C8: if the context is already done at the entry check of loop
iteration k (earlier iterations failing retryably without
cancellation), executeWithRetry returns the context's own error value
with exactly k invocations — the operation is not invoked for that
iteration; and if the context completes during the inter-attempt wait
of iteration j, that same error value is returned as-is (not
reclassified into the ProbeError taxonomy, not wrapped) after exactly
j+1 invocations. -/
theorem context_cancellation_returned_as_is (cfg : RetryConfig)
    (opA opB : Nat → Option GoError) (cEA cWA cEB cWB : Nat → Bool)
    (ctxErr : GoError) (k j : Nat)
    (hkM : (k : Int) ≤ cfg.MaxRetries)
    (hjM : (j : Int) < cfg.MaxRetries)
    (hEA : ∀ i, i < k → cEA i = false) (hkA : cEA k = true)
    (hopA : ∀ i, i < k → ∃ e, opA i = some e
        ∧ isRetryable cfg.RetryableErrors e = true)
    (hWA : ∀ i, i < k → cWA i = false)
    (hEB : ∀ i, i ≤ j → cEB i = false)
    (hopB : ∀ i, i ≤ j → ∃ e, opB i = some e
        ∧ isRetryable cfg.RetryableErrors e = true)
    (hWB : ∀ i, i < j → cWB i = false) (hjB : cWB j = true) :
    executeWithRetry cfg opA cEA cWA ctxErr = (some ctxErr, k, k)
    ∧ executeWithRetry cfg opB cEB cWB ctxErr = (some ctxErr, j + 1, j + 1) := by
  have hnotneg : ¬ cfg.MaxRetries < 0 := by omega
  constructor
  · rw [executeWithRetry, if_neg hnotneg]
    exact retryLoop_entry_cancel cfg opA cEA cWA ctxErr k 0 cfg.MaxRetries.toNat
      (by omega)
      (fun i hi => by have h := hEA i hi; rwa [Nat.zero_add])
      (by have h := hkA; rwa [Nat.zero_add])
      (fun i hi => by have h := hopA i hi; rwa [Nat.zero_add])
      (fun i hi => by have h := hWA i hi; rwa [Nat.zero_add])
  · rw [executeWithRetry, if_neg hnotneg]
    exact retryLoop_wait_cancel cfg opB cEB cWB ctxErr j 0 cfg.MaxRetries.toNat
      (by omega)
      (fun i hi => by have h := hEB i hi; rwa [Nat.zero_add])
      (fun i hi => by have h := hopB i hi; rwa [Nat.zero_add])
      (fun i hi => by have h := hWB i hi; rwa [Nat.zero_add])
      (by have h := hjB; rwa [Nat.zero_add])

theorem context_cancellation_returned_as_is_witness :
    executeWithRetry
        { MaxRetries := 3, InitialDelay := 100000000, MaxDelay := 5000000000,
          BackoffMultiplier := 2, Jitter := false,
          RetryableErrors := [ErrorType.network, ErrorType.timeout] }
        (fun _ => some (GoError.probeError ErrorType.network "down" "" none))
        (fun i => decide (1 ≤ i)) (fun _ => false) (GoError.plainError 42 none)
      = (some (GoError.plainError 42 none), 1, 1)
    ∧ executeWithRetry
        { MaxRetries := 3, InitialDelay := 100000000, MaxDelay := 5000000000,
          BackoffMultiplier := 2, Jitter := false,
          RetryableErrors := [ErrorType.network, ErrorType.timeout] }
        (fun _ => some (GoError.probeError ErrorType.network "down" "" none))
        (fun _ => false) (fun i => decide (1 ≤ i)) (GoError.plainError 42 none)
      = (some (GoError.plainError 42 none), 2, 2) :=
  context_cancellation_returned_as_is _
    (fun _ => some (GoError.probeError ErrorType.network "down" "" none))
    (fun _ => some (GoError.probeError ErrorType.network "down" "" none))
    (fun i => decide (1 ≤ i)) (fun _ => false)
    (fun _ => false) (fun i => decide (1 ≤ i))
    (GoError.plainError 42 none) 1 1
    (by decide) (by decide)
    (by decide) (by decide)
    (fun i _ => ⟨GoError.probeError ErrorType.network "down" "" none, rfl, rfl⟩)
    (by decide)
    (by decide)
    (fun i _ => ⟨GoError.probeError ErrorType.network "down" "" none, rfl, rfl⟩)
    (by decide) (by decide)

end GoProbe
